import Mathlib

/-!
Verification of the Kalimax Curation Prioritization & Risk-Flagging Engine.

The Python sources embedded here are:
* `src/data/medical_risk_flagging.py`  (MedicalRiskFlagger)
* `src/data/curation_prioritizer.py`   (CurationPrioritizer)
* `src/data/cultural_expression_batcher.py` (CulturalExpressionBatcher)
* `src/data/curation_dashboard.py`     (CurationDashboard)

Texts are modelled as lists of lowercase whitespace-separated words, which is
faithful to the Python code for punctuation-free text: the code lowercases its
input and matches word-boundary (`\b`) regular expressions against it.
-/

namespace Kalimax

set_option maxRecDepth 100000

/-- A text: the list of its lowercase, whitespace-separated words. -/
abbrev Text := List String

/-- True when `s` is a nonempty string of ASCII digits (regex `\d+`). -/
def isDigits (s : String) : Bool :=
  s.length != 0 && s.toList.all (fun c => c.isDigit)

/-- The word-boundary regex shapes used by `medical_risk_flagging.py`:
* `word w`        embeds `\bw\b`
* `seq2 a b`      embeds `\ba\s+b\b`
* `seq3 a b c`    embeds `\ba\s+b\s+c\b`
* `numUnit u`     embeds `\b\d+\s*u\b`  (digits optionally fused with the unit)
* `numUnitPl u`   embeds `\b\d+\s*us?\b` (optional plural `s`)
* `wordNum w`     embeds `\bw\s+\d+\b`
* `numBetween a b` embeds `\ba\s+\d+\s+b\b` -/
inductive Pat where
  | word (w : String)
  | seq2 (a b : String)
  | seq3 (a b c : String)
  | numUnit (u : String)
  | numUnitPl (u : String)
  | wordNum (w : String)
  | numBetween (a b : String)
  deriving DecidableEq

/-- Does some adjacent pair of words satisfy `p`? -/
def hasPair (p : String → String → Bool) : Text → Bool
  | [] => false
  | [_] => false
  | x :: y :: rest => p x y || hasPair p (y :: rest)

/-- Does some adjacent triple of words satisfy `p`? -/
def hasTriple (p : String → String → String → Bool) : Text → Bool
  | [] => false
  | [_] => false
  | [_, _] => false
  | x :: y :: z :: rest => p x y z || hasTriple p (y :: z :: rest)

/-- `\b\d+\s*u\b` fused case: the word is a nonempty digit string followed
directly by the unit, e.g. `500mg`. -/
def fusedNumUnit (w u : String) : Bool :=
  u.length < w.length &&
  isDigits (w.take (w.length - u.length)) &&
  w.drop (w.length - u.length) == u

/-- `\b\d+\s*u\b`: either a fused `500mg`-style word or a digit word followed
by the unit word. -/
def numUnitMatch (u : String) (t : Text) : Bool :=
  t.any (fun w => fusedNumUnit w u) || hasPair (fun x y => isDigits x && y == u) t

/-- `re.search` of one embedded pattern over a word-tokenised text. -/
def patMatch : Pat → Text → Bool
  | .word w, t => t.contains w
  | .seq2 a b, t => hasPair (fun x y => x == a && y == b) t
  | .seq3 a b c, t => hasTriple (fun x y z => x == a && y == b && z == c) t
  | .numUnit u, t => numUnitMatch u t
  | .numUnitPl u, t => numUnitMatch u t || numUnitMatch (u ++ "s") t
  | .wordNum w, t => hasPair (fun x y => x == w && isDigits y) t
  | .numBetween a b, t => hasTriple (fun x y z => x == a && isDigits y && z == b) t

/-- One element of the list `analyze_text_for_risks` returns: the Python dict
with keys term, risk_level (the `RiskLevel.value` string), category, reason,
matched_pattern (the regex source text), haitian_variants,
requires_immediate_review — in that insertion order. -/
structure RiskDict where
  term : String
  riskLevel : String
  category : String
  reason : String
  matchedPattern : String
  haitianVariants : List String
  requiresImmediateReview : Bool
  deriving DecidableEq

/-- One `MedicalRiskFlag` rule of `_initialize_risk_patterns`, with each
pattern paired with its regex source text (stored in `matched_pattern`). -/
structure RiskRule where
  term : String
  level : String
  category : String
  reason : String
  variants : List String
  patterns : List (Pat × String)
  deriving DecidableEq

/-- `_initialize_risk_patterns`, flattened in dict iteration order:
the CRITICAL list, then HIGH, then MODERATE. -/
def riskRules : List RiskRule := [
  { term := "cardiac arrest", level := "critical", category := "emergency",
    reason := "Life-threatening condition requiring immediate action",
    variants := ["kÃ¨ a rete", "kÃ¨ a kanpe"],
    patterns := [(.seq2 "cardiac" "arrest", "\\bcardiac\\s+arrest\\b"),
                 (.seq2 "heart" "stopped", "\\bheart\\s+stopped\\b")] },
  { term := "anaphylaxis", level := "critical", category := "allergy",
    reason := "Severe allergic reaction, potentially fatal",
    variants := ["gwo alÃ¨ji", "alÃ¨ji grav"],
    patterns := [(.word "anaphylaxis", "\\banaphylaxis\\b"),
                 (.seq2 "anaphylactic" "shock", "\\banaphylactic\\s+shock\\b")] },
  { term := "stroke", level := "critical", category := "neurological",
    reason := "Brain emergency requiring immediate treatment",
    variants := ["atak serebral", "paralizi"],
    patterns := [(.word "stroke", "\\bstroke\\b"),
                 (.seq2 "cerebral" "infarction", "\\bcerebral\\s+infarction\\b")] },
  { term := "overdose", level := "critical", category := "toxicology",
    reason := "Drug overdose can be fatal",
    variants := ["twÃ²p medikaman", "sÃ¨dÃ²z"],
    patterns := [(.word "overdose", "\\boverdose\\b"),
                 (.seq3 "too" "much" "medication", "\\btoo\\s+much\\s+medication\\b")] },
  { term := "suicide", level := "critical", category := "mental_health",
    reason := "Suicide risk requires immediate intervention",
    variants := ["touye tÃ¨t", "komisuisid"],
    patterns := [(.word "suicide", "\\bsuicide\\b"),
                 (.seq2 "kill" "myself", "\\bkill\\s+myself\\b"),
                 (.seq3 "end" "my" "life", "\\bend\\s+my\\s+life\\b")] },
  { term := "insulin", level := "high", category := "medication",
    reason := "Incorrect insulin dosage can be dangerous",
    variants := ["ensilin", "medikaman diabet"],
    patterns := [(.word "insulin", "\\binsulin\\b"),
                 (.seq2 "diabetic" "medication", "\\bdiabetic\\s+medication\\b")] },
  { term := "blood pressure", level := "high", category := "cardiovascular",
    reason := "Blood pressure management is critical",
    variants := ["tansyon", "presyon san"],
    patterns := [(.seq2 "blood" "pressure", "\\bblood\\s+pressure\\b"),
                 (.word "hypertension", "\\bhypertension\\b")] },
  { term := "pregnancy", level := "high", category := "obstetrics",
    reason := "Pregnancy-related care requires precision",
    variants := ["gwosÃ¨s", "ansent"],
    patterns := [(.word "pregnant", "\\bpregnant\\b"),
                 (.word "pregnancy", "\\bpregnancy\\b"),
                 (.word "expecting", "\\bexpecting\\b")] },
  { term := "chemotherapy", level := "high", category := "oncology",
    reason := "Cancer treatment requires precise communication",
    variants := ["chimyoterapi", "tretman kansÃ¨"],
    patterns := [(.word "chemotherapy", "\\bchemotherapy\\b"),
                 (.word "chemo", "\\bchemo\\b"),
                 (.seq2 "cancer" "treatment", "\\bcancer\\s+treatment\\b")] },
  { term := "antibiotic", level := "moderate", category := "medication",
    reason := "Antibiotic resistance and allergies are concerns",
    variants := ["antibiyotik", "medikaman enfeksyon"],
    patterns := [(.word "antibiotic", "\\bantibiotic\\b"),
                 (.word "penicillin", "\\bpenicillin\\b")] },
  { term := "surgery", level := "moderate", category := "procedure",
    reason := "Surgical procedures require clear communication",
    variants := ["operasyon", "chiri"],
    patterns := [(.word "surgery", "\\bsurgery\\b"),
                 (.word "operation", "\\boperation\\b"),
                 (.word "procedure", "\\bprocedure\\b")] }
]

/-- The dict `analyze_text_for_risks` appends for a matching vocabulary rule:
`requires_immediate_review` is `risk_level in [CRITICAL, HIGH]`. -/
def mkVocabFlag (r : RiskRule) (ps : Pat × String) : RiskDict :=
  { term := r.term, riskLevel := r.level, category := r.category,
    reason := r.reason, matchedPattern := ps.2, haitianVariants := r.variants,
    requiresImmediateReview := r.level == "critical" || r.level == "high" }

/-- `_initialize_medication_patterns`, each with its regex source. -/
def medicationPatterns : List (Pat × String) := [
  (.numUnit "mg", "\\b\\d+\\s*mg\\b"),
  (.numUnit "ml", "\\b\\d+\\s*ml\\b"),
  (.wordNum "take", "\\btake\\s+\\d+\\b"),
  (.numBetween "every" "hours", "\\bevery\\s+\\d+\\s+hours\\b"),
  (.seq2 "twice" "daily", "\\btwice\\s+daily\\b"),
  (.seq2 "once" "daily", "\\bonce\\s+daily\\b"),
  (.seq2 "before" "meals", "\\bbefore\\s+meals\\b"),
  (.seq2 "after" "meals", "\\bafter\\s+meals\\b"),
  (.seq2 "with" "food", "\\bwith\\s+food\\b"),
  (.seq3 "on" "empty" "stomach", "\\bon\\s+empty\\s+stomach\\b")
]

/-- `_initialize_dosage_patterns`, each with its regex source. -/
def dosagePatterns : List (Pat × String) := [
  (.numUnitPl "tablet", "\\b\\d+\\s*tablets?\\b"),
  (.numUnitPl "capsule", "\\b\\d+\\s*capsules?\\b"),
  (.numUnitPl "drop", "\\b\\d+\\s*drops?\\b"),
  (.numUnitPl "teaspoon", "\\b\\d+\\s*teaspoons?\\b"),
  (.numUnitPl "tablespoon", "\\b\\d+\\s*tablespoons?\\b"),
  (.seq2 "half" "tablet", "\\bhalf\\s+tablet\\b"),
  (.seq2 "quarter" "tablet", "\\bquarter\\s+tablet\\b")
]

/-- The structural flag `_check_medication_risks` emits for a medication
pattern match. -/
def medicationDosageFlag (src : String) : RiskDict :=
  { term := "medication_dosage", riskLevel := "high", category := "medication",
    reason := "Medication dosage requires precise translation",
    matchedPattern := src,
    haitianVariants := ["dÃ²z medikaman", "kantite medikaman"],
    requiresImmediateReview := true }

/-- The structural flag `_check_medication_risks` emits for a dosage
pattern match. -/
def dosageInstructionFlag (src : String) : RiskDict :=
  { term := "dosage_instruction", riskLevel := "high", category := "dosage",
    reason := "Dosage instructions must be translated accurately",
    matchedPattern := src,
    haitianVariants := ["enstriksyon dÃ²z", "jan pou pran"],
    requiresImmediateReview := true }

/-- `_check_medication_risks`: at most one medication flag (for the first
matching medication pattern — the loop breaks) followed by at most one dosage
flag (first matching dosage pattern). -/
def checkMedicationRisks (t : Text) : List RiskDict :=
  (match medicationPatterns.find? (fun p => patMatch p.1 t) with
   | some p => [medicationDosageFlag p.2]
   | none => []) ++
  (match dosagePatterns.find? (fun p => patMatch p.1 t) with
   | some p => [dosageInstructionFlag p.2]
   | none => [])

/-- `analyze_text_for_risks`: for each rule in table order, emit one flag for
the first matching pattern of that rule (the inner loop breaks after the first
match), then append the structural medication/dosage flags. -/
def analyzeTextForRisks (t : Text) : List RiskDict :=
  (riskRules.filterMap fun r =>
    (r.patterns.find? (fun p => patMatch p.1 t)).map (mkVocabFlag r)) ++
  checkMedicationRisks t

/-- Every flag `analyze_text_for_risks` can ever emit: one candidate per
(rule, pattern) pair plus the structural flags. -/
def possibleFlags : List RiskDict :=
  (riskRules.flatMap fun r => r.patterns.map (mkVocabFlag r)) ++
  medicationPatterns.map (fun p => medicationDosageFlag p.2) ++
  dosagePatterns.map (fun p => dosageInstructionFlag p.2)

/-- Lowercase hexadecimal digit, as produced by `json.dumps` unicode escapes. -/
def hexDigitChar (n : Nat) : Char :=
  if n < 10 then Char.ofNat (48 + n) else Char.ofNat (87 + n)

/-- Four lowercase hex digits of a codepoint below 0x10000. -/
def hex4 (n : Nat) : List Char :=
  [hexDigitChar (n / 4096 % 16), hexDigitChar (n / 256 % 16),
   hexDigitChar (n / 16 % 16), hexDigitChar (n % 16)]

/-- `json.dumps` escaping of one character (default `ensure_ascii=True`):
backslash and quote get a backslash escape, non-ASCII codepoints and control
characters become `\uXXXX` (no string in the rule tables contains a control
character, so the `\n`-style shorthands never arise). -/
def jsonEscapeChar (c : Char) : List Char :=
  if c = '\\' then ['\\', '\\']
  else if c = '"' then ['\\', '"']
  else if c.toNat < 32 || 127 < c.toNat then '\\' :: 'u' :: hex4 c.toNat
  else [c]

/-- A JSON string literal, as a character list. -/
def jsonString (s : String) : List Char :=
  '"' :: s.toList.flatMap jsonEscapeChar ++ ['"']

/-- `json.dumps` default item separator `", "` between serialized elements. -/
def joinCommaSpace : List (List Char) → List Char
  | [] => []
  | [x] => x
  | x :: y :: rest => x ++ ',' :: ' ' :: joinCommaSpace (y :: rest)

/-- A JSON array of strings. -/
def jsonStringArray (l : List String) : List Char :=
  '[' :: joinCommaSpace (l.map jsonString) ++ [']']

/-- JSON booleans. -/
def jsonBool (b : Bool) : List Char :=
  if b then "true".toList else "false".toList

/-- A serialized key plus the `json.dumps` default key separator `": "`. -/
def keyColon (k : String) : List Char := jsonString k ++ [':', ' ']

/-- `json.dumps` of one risk dict, keys in Python dict insertion order. -/
def serFlag (f : RiskDict) : List Char :=
  ['\x7b'] ++ keyColon "term" ++ jsonString f.term
  ++ [',', ' '] ++ keyColon "risk_level" ++ jsonString f.riskLevel
  ++ [',', ' '] ++ keyColon "category" ++ jsonString f.category
  ++ [',', ' '] ++ keyColon "reason" ++ jsonString f.reason
  ++ [',', ' '] ++ keyColon "matched_pattern" ++ jsonString f.matchedPattern
  ++ [',', ' '] ++ keyColon "haitian_variants" ++ jsonStringArray f.haitianVariants
  ++ [',', ' '] ++ keyColon "requires_immediate_review" ++ jsonBool f.requiresImmediateReview
  ++ ['\x7d']

/-- `risk_json = json.dumps(all_risks)`: the serialized flag list. -/
def serFlags (l : List RiskDict) : List Char :=
  '[' :: joinCommaSpace (l.map serFlag) ++ [']']

/-- SQL `hay LIKE '%needle%'`: substring containment. -/
def likeContains (needle hay : List Char) : Prop := needle <:+: hay

instance (needle hay : List Char) : Decidable (likeContains needle hay) :=
  inferInstanceAs (Decidable (needle <:+: hay))

/-- The characters of `'%critical%'`. -/
def criticalChars : List Char := "critical".toList

/-- The characters of `'%high%'`. -/
def highChars : List Char := "high".toList

/-- The `CASE` expression of `flag_database_entries`: the serialized JSON is
scanned for the substrings `critical` and `high`:
`WHEN risk_json LIKE '%critical%' THEN 1 WHEN ... '%high%' THEN 2 ELSE 3`. -/
def priorityFromJson (j : List Char) : Nat :=
  if likeContains criticalChars j then 1
  else if likeContains highChars j then 2
  else 3

/-- Modelled from the spec: the store schema (`data/schema.sql`, read by
`init_db.py`) is not under `src/`. §6 of the spec describes the relational
tables `corpus`, `glossary`, `expressions`, each row exposing id, text
field(s), domain, confidence (float), curation_status, plus the engine-owned
fields `medical_risk_flags` (JSON), `requires_immediate_review`,
`priority_level` (int 1–3) and `curator_notes`; §3 adds the optional region
and cultural note. `textA`/`textB` are the two text columns the engine reads
per table (corpus: `src_text`/`tgt_text_localized`, glossary:
`creole_canonical`/`english_equivalents`, expressions: `creole`/
`idiomatic_en`); `localizedHt` and `register` exist on expression rows and are
read only by the batcher. Cultural notes are word-tokenised like other text
since the batcher pattern-matches them. -/
structure EntryRow where
  id : Nat
  textA : Text
  textB : Option Text
  localizedHt : Option Text
  domain : Option String
  register : Option String
  confidence : ℚ
  region : Option String
  culturalNote : Option Text
  curationStatus : String
  medicalRiskFlags : Option (List Char)
  requiresImmediateReview : Option Bool
  priorityLevel : Option Nat
  curatorNotes : Option String
  deriving DecidableEq

/-- The shared corpus store: the three logical tables the engine sweeps. -/
structure Store where
  corpus : List EntryRow
  glossary : List EntryRow
  expressions : List EntryRow
  deriving DecidableEq

/-- The `all_risks` list `flag_database_entries` accumulates for one row:
flags of each non-NULL text column in column order (a NULL or empty column
contributes no flags either way, since `analyze_text_for_risks` of empty text
is empty). -/
def rowRisks (r : EntryRow) : List RiskDict :=
  analyzeTextForRisks r.textA ++
  (match r.textB with
   | some t => analyzeTextForRisks t
   | none => [])

/-- The per-row write of `flag_database_entries`: only rows with a nonempty
flag list are updated; the stored JSON is replaced, `requires_immediate_review`
is set to 1 unconditionally, and `priority_level` comes from the `LIKE`-based
`CASE` over the serialized JSON. -/
def flagRow (r : EntryRow) : EntryRow :=
  let risks := rowRisks r
  if risks.isEmpty then r
  else
    { r with medicalRiskFlags := some (serFlags risks),
             requiresImmediateReview := some true,
             priorityLevel := some (priorityFromJson (serFlags risks)) }

/-- One table sweep: only rows `WHERE curation_status = 'draft'` are read and
(possibly) updated. -/
def flagTable (rows : List EntryRow) : List EntryRow :=
  rows.map fun r => if r.curationStatus == "draft" then flagRow r else r

/-- `flag_database_entries(table_name)`: sweep the named table, or all three
when `table_name` is None (an unknown name is skipped by the `else: continue`
branch). -/
def flagDatabaseEntries (tableName : Option String) (s : Store) : Store :=
  match tableName with
  | none =>
    { corpus := flagTable s.corpus, glossary := flagTable s.glossary,
      expressions := flagTable s.expressions }
  | some t =>
    { corpus := if t == "corpus" then flagTable s.corpus else s.corpus,
      glossary := if t == "glossary" then flagTable s.glossary else s.glossary,
      expressions :=
        if t == "expressions" then flagTable s.expressions else s.expressions }

/-- `PriorityLevel` of `curation_prioritizer.py` with its `.value` ordinals. -/
inductive PriorityLevel where
  | critical
  | high
  | medium
  | low
  deriving DecidableEq

/-- The `Enum` value: CRITICAL=1, HIGH=2, MEDIUM=3, LOW=4. -/
def PriorityLevel.value : PriorityLevel → Nat
  | .critical => 1
  | .high => 2
  | .medium => 3
  | .low => 4

/-- Python `str.lower()` (ASCII case folding suffices for the rule tables). -/
def strLower (s : String) : String := String.mk (s.toList.map Char.toLower)

/-- Substring test used for `term in text_lower` (Python `in` on strings). -/
def strContains (needle hay : String) : Bool :=
  decide (needle.toList <:+: hay.toList)

/-- The columns of the `high_risk` table as created by
`convert_csv_to_sqlite.py` (the only `CREATE TABLE high_risk` in `src/`). -/
def highRiskColumns : List String :=
  ["id", "high_risk_id", "src_en", "tgt_ht_literal", "tgt_ht_localized",
   "contains_dosage", "dosage_json", "instruction_type", "risk_level",
   "safety_flags", "require_human_review", "provenance", "notes"]

/-- `_load_high_risk_terms`: `SELECT creole_term FROM high_risk WHERE
risk_level = 'critical'`, lowercasing the results. When the query fails — in
this repository `high_risk` has no `creole_term` column, so sqlite raises
OperationalError — the handler logs a warning and returns the empty set.
`rows` gives each row's (creole_term, risk_level) values for the hypothetical
schema that has the column. -/
def loadHighRiskTerms (cols : List String) (rows : List (String × String)) :
    List String :=
  if cols.contains "creole_term" then
    (rows.filter (fun r => r.2 == "critical")).map (fun r => strLower r.1)
  else []

/-- `calculate_priority(confidence, domain, text, table_name)`: the fixed
precedence ladder, returning the priority level and accumulated risk flags. -/
def calculatePriority (highRiskTerms : List String) (confidence : ℚ)
    (domain : String) (text : String) (tableName : String) :
    PriorityLevel × List String :=
  let textLower := strLower text
  if highRiskTerms.any (fun term => strContains term textLower) then
    (.critical, ["high_risk_medical"])
  else if confidence < 3/10 then
    (.critical, ["very_low_confidence"])
  else if domain == "medical" || confidence < 1/2 then
    (.high, (if domain == "medical" then ["medical_domain"] else []) ++
            (if confidence < 1/2 then ["low_confidence"] else []))
  else if tableName == "expressions" || domain == "cultural" ||
          confidence < 7/10 then
    (.medium, (if tableName == "expressions" then ["cultural_expression"]
               else []) ++
              (if confidence < 7/10 then ["moderate_confidence"] else []))
  else
    (.low, [])

/-- `_estimate_curation_time(text, risk_flags)`: base 5, plus word-count and
risk additions, capped at 30. -/
def estimateCurationTime (text : Text) (riskFlags : List String) : Nat :=
  let t1 := 5 + (if 20 < text.length then 3
                 else if 10 < text.length then 2 else 0)
  let t2 := t1 + (if riskFlags.contains "high_risk_medical" then 10
                  else if riskFlags.contains "medical_domain" then 5 else 0)
  let t3 := t2 + (if riskFlags.contains "cultural_expression" then 3 else 0)
  let t4 := t3 + (if riskFlags.contains "very_low_confidence" then 5 else 0)
  min t4 30

/-- A `CurationTask` as built by `get_prioritized_tasks`. -/
structure CurationTask where
  id : Nat
  tableName : String
  srcText : Text
  tgtText : Option Text
  confidence : ℚ
  domain : String
  priority : PriorityLevel
  riskFlags : List String
  culturalNotes : Option String
  region : Option String
  estimatedTimeMinutes : Nat
  deriving DecidableEq

/-- The words of a text joined back into the raw string the Python code passes
around (`calculate_priority` substring-checks it). -/
def textStr (t : Text) : String := String.intercalate " " t

/-- `sqlite3.Row` supports mapping access by key and index but has no `.get`
method: the Python expression `row.get('cultural_note')` in
`get_prioritized_tasks` raises `AttributeError` on every row that reaches
task construction. -/
def sqliteRowGet (_ : EntryRow) (_ : String) : Except String (Option String) :=
  .error "AttributeError: sqlite3.Row object has no attribute get"

/-- The `continue` guard of `get_prioritized_tasks`: a priority filter is
set and the computed priority differs from it. -/
def skipTask (pf : Option PriorityLevel) (p : PriorityLevel) : Bool :=
  match pf with
  | some q => p != q
  | none => false

/-- The per-row loop body of `get_prioritized_tasks` over one table's draft
rows: default the confidence (Python `row['confidence'] or 0.5`, which also
maps an exact 0.0 to 0.5 because 0.0 is falsy) and domain, compute the
priority, apply the priority filter (`continue` happens before task
construction), then build the task — whose `cultural_notes=row.get(...)`
raises. -/
def tasksOfRows (highRiskTerms : List String) (tname : String)
    (domainOf : EntryRow → Option String) (pf : Option PriorityLevel) :
    List EntryRow → Except String (List CurationTask)
  | [] => .ok []
  | r :: rest =>
    let confidence := if r.confidence = 0 then (1/2 : ℚ) else r.confidence
    let domain := (domainOf r).getD "general"
    let pr := calculatePriority highRiskTerms confidence domain
      (textStr r.textA) tname
    if skipTask pf pr.1 then
      tasksOfRows highRiskTerms tname domainOf pf rest
    else do
      let note ← sqliteRowGet r "cultural_note"
      let rest2 ← tasksOfRows highRiskTerms tname domainOf pf rest
      .ok ({ id := r.id, tableName := tname, srcText := r.textA,
             tgtText := r.textB, confidence := confidence, domain := domain,
             priority := pr.1, riskFlags := pr.2, culturalNotes := note,
             region := r.region,
             estimatedTimeMinutes :=
               estimateCurationTime r.textA pr.2 } :: rest2)

/-- The SQL row selection of `get_prioritized_tasks` for one table:
`curation_status = 'draft'`, optionally `AND domain_col = domain_filter`
(SQL `=` is false on NULL). -/
def selectDraftRows (domainOf : EntryRow → Option String)
    (df : Option String) (rows : List EntryRow) : List EntryRow :=
  rows.filter fun r =>
    r.curationStatus == "draft" &&
    (match df with
     | some d => domainOf r == some d
     | none => true)

/-- Stable insertion of `x` into a sorted list: `x` goes before the first
element it compares ≤ to. -/
def orderedInsertB {α : Type _} (le : α → α → Bool) (x : α) :
    List α → List α
  | [] => [x]
  | y :: ys => if le x y then x :: y :: ys else y :: orderedInsertB le x ys

/-- A stable sort (insertion sort). Python's `list.sort` and SQL `ORDER BY`
are stable sorts; any two stable sorts agree, so this models them exactly. -/
def stableSort {α : Type _} (le : α → α → Bool) : List α → List α
  | [] => []
  | x :: xs => orderedInsertB le x (stableSort le xs)

/-- Task ordering key: `(t.priority.value, t.confidence)` ascending. -/
def taskLE (a b : CurationTask) : Bool :=
  a.priority.value < b.priority.value ||
  (a.priority.value == b.priority.value && a.confidence ≤ b.confidence)

/-- `get_prioritized_tasks(limit, priority_filter, domain_filter)`: scan the
three tables' draft rows (expressions aliases `register` as the domain
column), build tasks, sort by (priority, confidence) and truncate — except
that any exception makes the handler return `[]`, and task construction
always raises `AttributeError` (see `sqliteRowGet`). -/
def getPrioritizedTasks (highRiskTerms : List String) (limit : Nat)
    (pf : Option PriorityLevel) (df : Option String) (s : Store) :
    List CurationTask :=
  match tasksOfRows highRiskTerms "corpus" (fun r => r.domain) pf
      (selectDraftRows (fun r => r.domain) df s.corpus) with
  | .error _ => []
  | .ok t1 =>
    match tasksOfRows highRiskTerms "glossary" (fun r => r.domain) pf
        (selectDraftRows (fun r => r.domain) df s.glossary) with
    | .error _ => []
    | .ok t2 =>
      match tasksOfRows highRiskTerms "expressions" (fun r => r.register) pf
          (selectDraftRows (fun r => r.register) df s.expressions) with
      | .error _ => []
      | .ok t3 => (stableSort taskLE ((t1 ++ t2) ++ t3)).take limit

/-- `HaitianRegion` of `cultural_expression_batcher.py`. -/
inductive HaitianRegion where
  | ouest
  | nord
  | sud
  | artibonite
  | centre
  | grandAnse
  | nippes
  | nordEst
  | nordOuest
  | sudEst
  | general
  deriving DecidableEq

/-- The `Enum` value strings. -/
def regionValue : HaitianRegion → String
  | .ouest => "ouest"
  | .nord => "nord"
  | .sud => "sud"
  | .artibonite => "artibonite"
  | .centre => "centre"
  | .grandAnse => "grand_anse"
  | .nippes => "nippes"
  | .nordEst => "nord_est"
  | .nordOuest => "nord_ouest"
  | .sudEst => "sud_est"
  | .general => "general"

/-- `ExpressionType` of `cultural_expression_batcher.py`. -/
inductive ExpressionType where
  | idiom
  | proverb
  | medicalCultural
  | religious
  | social
  | family
  | food
  | weather
  | work
  | celebration
  deriving DecidableEq

/-- The `Enum` value strings. -/
def exprTypeValue : ExpressionType → String
  | .idiom => "idiom"
  | .proverb => "proverb"
  | .medicalCultural => "medical_cultural"
  | .religious => "religious"
  | .social => "social"
  | .family => "family"
  | .food => "food"
  | .weather => "weather"
  | .work => "work"
  | .celebration => "celebration"

/-- Batcher regex shapes: the word-boundary shapes of `Pat` plus
`ordered a b` for `\ba\b.*\bb\b` (a then b anywhere later) and `capDot` for
the proverb pattern `^[A-Z].*\.$` (with `re.IGNORECASE`: any letter first,
final character a period), which must look at the raw joined string. -/
inductive BPat where
  | word (w : String)
  | seqN (ws : List String)
  | ordered (a b : String)
  | capDot
  deriving DecidableEq

/-- A word `a` followed — not necessarily adjacently — by a later word `b`. -/
def hasOrdered (a b : String) : Text → Bool
  | [] => false
  | x :: rest => (x == a && rest.contains b) || hasOrdered a b rest

/-- The words `ws` occur as an adjacent run somewhere in the text
(`\bw1 w2 …\b` on a space-joined phrase pattern). -/
def hasRun (ws : List String) : Text → Bool
  | [] => ws.isEmpty
  | x :: rest => ws.isPrefixOf (x :: rest) || hasRun ws rest

/-- `^[A-Z].*\.$` with `re.IGNORECASE` on the raw string: first character a
letter and last character a period. -/
def capDotMatch (s : String) : Bool :=
  match s.toList with
  | [] => false
  | c :: rest =>
    c.isAlpha && (match (c :: rest).getLast? with
                  | some d => d == '.'
                  | none => false)

/-- `re.search` of one batcher pattern over the combined text (word list and
raw joined form). -/
def bpatMatch (bp : BPat) (full : Text) (fullStr : String) : Bool :=
  match bp with
  | .word w => full.contains w
  | .seqN ws => hasRun ws full
  | .ordered a b => hasOrdered a b full
  | .capDot => capDotMatch fullStr

/-- `_initialize_regional_patterns`, in dict insertion order. -/
def regionalPatterns : List (HaitianRegion × List BPat) := [
  (.ouest, [.word "pòtoprens", .word "kapital", .word "lavil",
            .word "petyonvil", .word "delma", .word "kenskòf"]),
  (.nord, [.word "kapayisyen", .word "okap", .word "milò",
           .word "dondon", .word "plèndino"]),
  (.sud, [.word "lekay", .word "sud", .word "akayè",
          .word "pòsalè", .word "chantal"]),
  (.artibonite, [.word "gonayiv", .word "desalin", .word "verrèt",
                 .word "petitgwav", .word "marebalè"]),
  (.centre, [.word "inch", .word "mayisad", .word "tomaso",
             .word "boukankarè"]),
  (.grandAnse, [.word "jeremi", .word "korbay", .seqN ["dame", "mari"],
                .word "moron", .word "pestel"]),
  (.nippes, [.word "miragwàn", .word "baradè", .seqN ["fon", "verrèt"],
             .seqN ["petit", "trou"]]),
  (.nordEst, [.word "fòlibète", .word "wanament", .word "karaktè",
              .seqN ["mombin", "kwòch"]]),
  (.nordOuest, [.word "pòdepè", .word "janrabel", .word "mòlsenmikèl",
                .word "bombadil"]),
  (.sudEst, [.word "jakmèl", .word "marigò", .word "kayè",
             .word "bèlans", .word "kòtdefe"])
]

/-- `_initialize_expression_classifiers`, in dict insertion order. -/
def expressionClassifiers : List (ExpressionType × List BPat) := [
  (.idiom, [.ordered "kou" "kout", .ordered "si" "si", .ordered "tan" "tan",
            .ordered "kòm" "kòm", .ordered "depi" "rive"]),
  (.proverb, [.capDot, .word "prèvèb", .word "ditou",
              .seqN ["gen", "yon", "mo", "ki", "di"],
              .seqN ["kòm", "yo", "di"]]),
  (.medicalCultural, [.word "fèy", .word "tizann", .word "remèd",
                      .seqN ["medsen", "fèy"], .seqN ["doktè", "fèy"],
                      .word "manbo", .word "wanga"]),
  (.religious, [.word "bondye", .word "jezu", .word "sèn", .word "lwa",
                .word "vèvè", .word "priyè", .word "kanzo"]),
  (.social, [.word "kominote", .word "vwazinaj", .word "konbit",
             .word "sosyete", .word "famn"]),
  (.family, [.word "fanmi", .word "manman", .word "papa", .word "tonton",
             .word "matant", .word "kouzen", .word "tifi", .word "tigason"]),
  (.food, [.word "manje", .word "kuizin", .word "diri", .word "pwa",
           .word "banann", .word "kalalou", .word "griyò"]),
  (.weather, [.word "lapli", .word "sèl", .word "van", .word "siklòn",
              .word "sezon", .word "frechè", .word "cho"]),
  (.work, [.word "travay", .word "jòb", .word "kòmès", .word "kiltè",
           .word "peyizan", .word "machann"]),
  (.celebration, [.word "fèt", .word "kanaval", .word "noèl", .word "pak",
                  .word "muzik", .word "danse", .word "konpa"])
]

/-- The combined lowercased text `f"{creole} {english} {note}"` as a word
list (`or ''` defaults for the nullable columns). -/
def exprFullText (r : EntryRow) : Text :=
  r.textA ++ r.textB.getD [] ++ r.culturalNote.getD []

/-- The combined text as the raw joined string (needed by `capDot`; when the
note is empty the f-string leaves a trailing space, so `\.$` cannot match). -/
def exprFullStr (r : EntryRow) : String :=
  textStr r.textA ++ " " ++ textStr (r.textB.getD []) ++ " " ++
  textStr (r.culturalNote.getD [])

/-- The region half of `classify_expression`: first region (in dict order)
with any matching pattern wins; default `general`. -/
def classifyRegion (full : Text) (fullStr : String) : HaitianRegion :=
  match regionalPatterns.find?
      (fun rp => rp.2.any (fun p => bpatMatch p full fullStr)) with
  | some rp => rp.1
  | none => .general

/-- The type half of `classify_expression`: count matching patterns per type
and keep the first type with the strictly largest count; default `idiom` at
zero matches. -/
def classifyType (full : Text) (fullStr : String) : ExpressionType :=
  (expressionClassifiers.foldl
    (fun best tc =>
      let n := (tc.2.filter (fun p => bpatMatch p full fullStr)).length
      if best.2 < n then (tc.1, n) else best)
    (ExpressionType.idiom, 0)).1

/-- `classify_expression(creole, english, note)`. -/
def classifyExpression (r : EntryRow) : HaitianRegion × ExpressionType :=
  (classifyRegion (exprFullText r) (exprFullStr r),
   classifyType (exprFullText r) (exprFullStr r))

/-- Draft expression rows in query order:
`ORDER BY confidence ASC, id ASC`. -/
def draftExprsSorted (s : Store) : List EntryRow :=
  stableSort
    (fun a b => a.confidence < b.confidence ||
                (a.confidence == b.confidence && a.id ≤ b.id))
    (s.expressions.filter (fun r => r.curationStatus == "draft"))

/-- Append an entry to its type bucket (insertion-ordered, as Python dicts
preserve insertion order). -/
def insertTy (tys : List (ExpressionType × List EntryRow))
    (ty : ExpressionType) (r : EntryRow) :
    List (ExpressionType × List EntryRow) :=
  match tys with
  | [] => [(ty, [r])]
  | (t, es) :: rest =>
    if t = ty then (t, es ++ [r]) :: rest else (t, es) :: insertTy rest ty r

/-- Append an entry to its (region, type) bucket of the nested grouping. -/
def insertNested
    (groups : List (HaitianRegion × List (ExpressionType × List EntryRow)))
    (reg : HaitianRegion) (ty : ExpressionType) (r : EntryRow) :
    List (HaitianRegion × List (ExpressionType × List EntryRow)) :=
  match groups with
  | [] => [(reg, [(ty, [r])])]
  | (g, tys) :: rest =>
    if g = reg then (g, insertTy tys ty r) :: rest
    else (g, tys) :: insertNested rest reg ty r

/-- The grouping loop of `create_batches`: classify each row, apply the
region/type filters (`continue` skips the row before grouping), and insert
into the nested `defaultdict` structure. -/
def groupExpressions (rf : Option HaitianRegion) (tf : Option ExpressionType)
    (rows : List EntryRow) :
    List (HaitianRegion × List (ExpressionType × List EntryRow)) :=
  rows.foldl
    (fun groups r =>
      let c := classifyExpression r
      if (match rf with
          | some f => c.1 != f
          | none => false) then groups
      else if (match tf with
               | some f => c.2 != f
               | none => false) then groups
      else insertNested groups c.1 c.2 r)
    []

/-- `_get_expert_domain`. -/
def getExpertDomain (region : HaitianRegion) (ty : ExpressionType) : String :=
  let base :=
    match ty with
    | .medicalCultural => "medical_anthropologist"
    | .religious => "religious_studies"
    | .proverb => "cultural_linguist"
    | .food => "culinary_anthropologist"
    | .family => "social_anthropologist"
    | .celebration => "cultural_historian"
    | _ => "cultural_linguist"
  if region ≠ HaitianRegion.general then base ++ "_" ++ regionValue region
  else base

/-- Truthiness of a nullable text column (`if expr.get('cultural_note')`). -/
def noteTruthy (o : Option Text) : Bool :=
  match o with
  | some t => !t.isEmpty
  | none => false

/-- `_estimate_batch_time`: 8 per expression, +3 for long creole text,
+5/+2 for low confidence, +2 when a cultural note exists. -/
def estimateBatchTime (es : List EntryRow) : Nat :=
  es.foldl
    (fun acc e =>
      acc + (8 + (if 10 < e.textA.length then 3 else 0) +
             (if e.confidence < 2/5 then 5
              else if e.confidence < 3/5 then 2 else 0) +
             (if noteTruthy e.culturalNote then 2 else 0)))
    0

/-- `type_priorities` lookup (`.get(expr_type, 0)`). -/
def typePriority : ExpressionType → Nat
  | .medicalCultural => 20
  | .religious => 15
  | .proverb => 10
  | .family => 8
  | .social => 8
  | .food => 5
  | .celebration => 5
  | .weather => 3
  | .work => 3
  | .idiom => 2

/-- Python `round` to the nearest integer, ties to even (the model works in
exact rationals where the source uses binary floats). -/
def roundHalfEven (y : ℚ) : ℤ :=
  let f := ⌊y⌋
  let r := y - f
  if r < 1/2 then f
  else if 1/2 < r then f + 1
  else if f % 2 = 0 then f else f + 1

/-- `round(x, 2)`. -/
def roundTo2 (x : ℚ) : ℚ := (roundHalfEven (x * 100) : ℚ) / 100

/-- `_calculate_priority_score`: 50 + type priority + region bonus +
(1 − average confidence)·20 + size bonus, rounded to two decimals. The
average divides by the number of expressions in the batch. -/
def calculatePriorityScore (es : List EntryRow) (region : HaitianRegion)
    (ty : ExpressionType) : ℚ :=
  let b1 : ℚ := 50 + typePriority ty
  let b2 := b1 + (if region = .ouest ∨ region = .nord ∨ region = .sud then
                    (10 : ℚ)
                  else if region ≠ .general then 5 else 0)
  let avg : ℚ := ((es.map (fun e => e.confidence)).sum) / (es.length : ℚ)
  let b3 := b2 + (1 - avg) * 20
  let b4 := b3 + (if 15 ≤ es.length then (5 : ℚ)
                  else if 10 ≤ es.length then 3 else 0)
  roundTo2 b4

/-- `_extract_cultural_notes`: the set of truthy cultural notes. Python
iterates a hash set in unspecified order; the model keeps first occurrences,
which is faithful up to ordering. -/
def extractCulturalNotes (es : List EntryRow) : List Text :=
  ((es.filterMap (fun e => e.culturalNote)).filter
    (fun t => !t.isEmpty)).dedup

/-- `_get_validation_criteria`. -/
def validationCriteria : ExpressionType → List String
  | .idiom => ["Verify idiomatic meaning accuracy",
               "Check cultural appropriateness",
               "Confirm regional usage",
               "Validate register level"]
  | .proverb => ["Verify traditional accuracy",
                 "Check cultural significance",
                 "Confirm widespread usage",
                 "Validate moral/lesson content"]
  | .medicalCultural => ["Verify medical accuracy",
                         "Check cultural sensitivity",
                         "Confirm traditional usage",
                         "Validate safety implications"]
  | .religious => ["Verify religious accuracy",
                   "Check cultural sensitivity",
                   "Confirm denominational appropriateness",
                   "Validate spiritual context"]
  | .family => ["Verify family relationship accuracy",
                "Check cultural appropriateness",
                "Confirm social context",
                "Validate generational usage"]
  | _ => ["Verify translation accuracy",
          "Check cultural appropriateness",
          "Confirm regional usage",
          "Validate context suitability"]

/-- The chunking loop `for i in range(0, len(lst), batch_size)` written with
an explicit fuel argument (the list length) so the recursion is structural;
the fuel cannot run out because every step drops at least one element. The
zero-batch-size case never reaches this point (Python's `range` raises
ValueError on a zero step). -/
def chunksGo (n : Nat) : Nat → List EntryRow → List (List EntryRow)
  | _, [] => []
  | 0, _ :: _ => []
  | fuel + 1, x :: xs =>
    match n with
    | 0 => []
    | m + 1 =>
      (x :: xs).take (m + 1) :: chunksGo n fuel ((x :: xs).drop (m + 1))

/-- Successive slices of at most `n` elements. -/
def chunksOf (n : Nat) (l : List EntryRow) : List (List EntryRow) :=
  chunksGo n l.length l

/-- A `CulturalExpressionBatch`. `seq` is the numeric suffix of the batch id,
carried explicitly; the full id string is `batchIdOf`. -/
structure CulturalBatch where
  seq : Nat
  region : HaitianRegion
  expressionType : ExpressionType
  expressions : List EntryRow
  expertDomain : String
  estimatedReviewTime : Nat
  priorityScore : ℚ
  culturalNotes : List Text
  validation : List String
  deriving DecidableEq

/-- `{seq:03d}` zero padding. -/
def pad3 (n : Nat) : String :=
  if n < 10 then "00" ++ toString n
  else if n < 100 then "0" ++ toString n
  else toString n

/-- `f"CULT_{region.value.upper()}_{expr_type.value.upper()}_{seq:03d}"`. -/
def mkBatchId (region : HaitianRegion) (ty : ExpressionType) (seq : Nat) :
    String :=
  "CULT_" ++ (regionValue region).toUpper ++ "_" ++
  (exprTypeValue ty).toUpper ++ "_" ++ pad3 seq

/-- The batch id string of a batch. -/
def batchIdOf (b : CulturalBatch) : String :=
  mkBatchId b.region b.expressionType b.seq

/-- One constructed batch. -/
def mkBatch (seq : Nat) (region : HaitianRegion) (ty : ExpressionType)
    (es : List EntryRow) : CulturalBatch :=
  { seq := seq, region := region, expressionType := ty, expressions := es,
    expertDomain := getExpertDomain region ty,
    estimatedReviewTime := estimateBatchTime es,
    priorityScore := calculatePriorityScore es region ty,
    culturalNotes := extractCulturalNotes es,
    validation := validationCriteria ty }

/-- Flatten the nested (region → type → entries) grouping in its iteration
order. -/
def flattenGroups
    (gs : List (HaitianRegion × List (ExpressionType × List EntryRow))) :
    List (HaitianRegion × ExpressionType × List EntryRow) :=
  gs.flatMap (fun g => g.2.map (fun t => (g.1, t.1, t.2)))

/-- Every chunk of every group, in creation order. -/
def allChunks (bs : Nat)
    (gs : List (HaitianRegion × List (ExpressionType × List EntryRow))) :
    List (HaitianRegion × ExpressionType × List EntryRow) :=
  (flattenGroups gs).flatMap
    (fun g => (chunksOf bs g.2.2).map (fun c => (g.1, g.2.1, c)))

/-- The numbering loop: `batch_counter` starts at 1 before the group loops
and increments per created batch, across all (region, type) groups. -/
def numberBatches (start : Nat) :
    List (HaitianRegion × ExpressionType × List EntryRow) →
    List CulturalBatch
  | [] => []
  | g :: rest => mkBatch start g.1 g.2.1 g.2.2 :: numberBatches (start + 1) rest

/-- `create_batches` before its final sort: select and order draft
expressions, classify, filter, group, chunk, and number globally. With
`batch_size = 0` Python's `range` raises ValueError, the handler logs, and
the (still empty) batch list is returned. -/
def createBatchesUnsorted (bs : Nat) (rf : Option HaitianRegion)
    (tf : Option ExpressionType) (s : Store) : List CulturalBatch :=
  if bs = 0 then []
  else numberBatches 1 (allChunks bs (groupExpressions rf tf
    (draftExprsSorted s)))

/-- `create_batches(batch_size, region_filter, type_filter)`: the created
batches sorted by priority score, highest first (stable, like Python
`list.sort(reverse=True)`). -/
def createBatches (bs : Nat) (rf : Option HaitianRegion)
    (tf : Option ExpressionType) (s : Store) : List CulturalBatch :=
  stableSort (fun a b => b.priorityScore ≤ a.priorityScore)
    (createBatchesUnsorted bs rf tf s)

/-- The tables that exist in the store. -/
def knownTables : List String := ["corpus", "glossary", "expressions"]

/-- The row write of `update_curation_status`: `SET curation_status = ?,
curator_notes = ? WHERE id = ?` (plus `updated_at`, which the model has no
clock for). The status string is written verbatim — nothing validates it. -/
def writeStatus (entryId : Nat) (newStatus notes : String)
    (rows : List EntryRow) : List EntryRow :=
  rows.map fun r =>
    if r.id == entryId then
      { r with curationStatus := newStatus, curatorNotes := some notes }
    else r

/-- `update_curation_status(entry_id, table, new_status, curator_notes)`:
the table name is interpolated into the SQL, so an unknown table makes
sqlite raise OperationalError, which the handler turns into `False` with no
write; for a known table the update always commits and returns `True`,
whatever the status string is. -/
def updateCurationStatus (s : Store) (entryId : Nat)
    (table newStatus notes : String) : Bool × Store :=
  if table == "corpus" then
    (true, { s with corpus := writeStatus entryId newStatus notes s.corpus })
  else if table == "glossary" then
    (true,
     { s with glossary := writeStatus entryId newStatus notes s.glossary })
  else if table == "expressions" then
    (true,
     { s with expressions :=
         writeStatus entryId newStatus notes s.expressions })
  else (false, s)

/-- A fresh draft row with the given id, confidence and text columns; all
engine-owned fields still unset. -/
def draftRow (id : Nat) (conf : ℚ) (textA : Text) (textB : Option Text) :
    EntryRow :=
  { id := id, textA := textA, textB := textB, localizedHt := none,
    domain := none, register := none, confidence := conf, region := none,
    culturalNote := none, curationStatus := "draft",
    medicalRiskFlags := none, requiresImmediateReview := none,
    priorityLevel := none, curatorNotes := none }

/-- A draft corpus row whose only flag is the High-level blood-pressure flag —
whose reason text contains the substring `critical`. -/
def bpRow : EntryRow :=
  draftRow 1 1 ["regular", "checkup", "for", "blood", "pressure"] none

/-- A draft corpus row whose only flag is the Moderate-level surgery flag. -/
def opRow : EntryRow :=
  draftRow 2 1 ["the", "operation", "went", "well"] none

/-- A draft corpus row holding the end-to-end scenario text
"Call 911 immediately if chest pain worsens". -/
def row911 : EntryRow :=
  draftRow 3 (9/10)
    ["call", "911", "immediately", "if", "chest", "pain", "worsens"] none

/-- A store with two draft expressions that classify into two different
(region, type) groups: row 1 matches nothing (general/idiom), row 2 contains
`manman` (general/family). -/
def exprStore : Store :=
  { corpus := [], glossary := [],
    expressions := [draftRow 1 0 ["bonjou"] (some ["hello"]),
                    draftRow 2 1 ["manman", "mwen"]
                      (some ["my", "mother"])] }

/-- A store with one draft corpus row, for exercising the dashboard write. -/
def dashStore : Store :=
  { corpus := [draftRow 1 1 ["hello"] none], glossary := [],
    expressions := [] }

section SubstringLemmas

variable {α : Type _}

theorem subConsExtend {w l : List α} {c : α} (h : w <:+: l) : w <:+: c :: l := by
  obtain ⟨s, t, hst⟩ := h
  exact ⟨c :: s, t, by rw [← hst]; rfl⟩

theorem subAppendLeftExt {w x : List α} (y : List α) (h : w <:+: x) :
    w <:+: x ++ y :=
  h.trans ⟨[], y, rfl⟩

theorem subAppendRightExt {w y : List α} (x : List α) (h : w <:+: y) :
    w <:+: x ++ y :=
  h.trans ⟨x, [], by simp⟩

theorem subConsSkip {w l : List α} {c : α} (hc : c ∉ w) (hw : w ≠ [])
    (h : w <:+: c :: l) : w <:+: l := by
  rw [List.infix_cons_iff] at h
  rcases h with hp | hi
  · obtain ⟨t, ht⟩ := hp
    cases w with
    | nil => exact absurd rfl hw
    | cons d w2 =>
      rw [List.cons_append] at ht
      obtain ⟨rfl, -⟩ := List.cons.inj ht
      exact absurd (List.mem_cons_self d w2) hc
  · exact hi

theorem subRev {w l : List α} (h : w <:+: l) : w.reverse <:+: l.reverse := by
  obtain ⟨s, t, hst⟩ := h
  exact ⟨t.reverse, s.reverse, by rw [← hst]; simp⟩

theorem subConcatSkip {w l : List α} {c : α} (hc : c ∉ w) (hw : w ≠ [])
    (h : w <:+: l ++ [c]) : w <:+: l := by
  have h2 := subRev h
  rw [List.reverse_append] at h2
  have h3 : w.reverse <:+: l.reverse :=
    subConsSkip (by simpa using hc) (by simpa using hw) (by simpa using h2)
  have h4 := subRev h3
  simpa using h4

theorem preAppendCases (b : List α) :
    ∀ (a w : List α), w <+: a ++ b →
      w <+: a ∨ ∃ w2, w = a ++ w2 ∧ w2 <+: b
  | [], w, h => .inr ⟨w, rfl, h⟩
  | c :: a, w, h => by
    cases w with
    | nil => exact .inl ⟨c :: a, rfl⟩
    | cons d w2 =>
      obtain ⟨t, ht⟩ := h
      rw [List.cons_append, List.cons_append] at ht
      obtain ⟨rfl, ht2⟩ := List.cons.inj ht
      rcases preAppendCases b a w2 ⟨t, ht2⟩ with hp | ⟨w3, rfl, h3⟩
      · obtain ⟨u, hu⟩ := hp
        exact .inl ⟨u, by rw [List.cons_append, hu]⟩
      · exact .inr ⟨w3, by rw [List.cons_append], h3⟩

theorem sufExtendCons {w l : List α} (c : α) (h : w <:+ l) : w <:+ c :: l := by
  obtain ⟨s, hs⟩ := h
  exact ⟨c :: s, by rw [← hs]; rfl⟩

theorem subAppendCases {b : List α} :
    ∀ (a : List α) {w}, w <:+: a ++ b →
      w <:+: a ∨ w <:+: b ∨
      ∃ w1 w2, w = w1 ++ w2 ∧ w1 ≠ [] ∧ w2 ≠ [] ∧ w1 <:+ a ∧ w2 <+: b
  | [], w, h => .inr (.inl h)
  | c :: a, w, h => by
    rw [List.cons_append, List.infix_cons_iff] at h
    rcases h with hp | hi
    · rw [← List.cons_append] at hp
      rcases preAppendCases b (c :: a) w hp with h1 | ⟨w2, rfl, h2⟩
      · obtain ⟨t, ht⟩ := h1
        exact .inl ⟨[], t, by rw [List.nil_append, ht]⟩
      · cases w2 with
        | nil => exact .inl ⟨[], [], by simp⟩
        | cons e w3 =>
          exact .inr (.inr ⟨c :: a, e :: w3, rfl, by simp, by simp,
            ⟨[], rfl⟩, h2⟩)
    · rcases subAppendCases a hi with h1 | h2 | ⟨w1, w2, rfl, hn1, hn2, hs, hp2⟩
      · exact .inl (subConsExtend h1)
      · exact .inr (.inl h2)
      · exact .inr (.inr ⟨w1, w2, rfl, hn1, hn2, sufExtendCons c hs, hp2⟩)

end SubstringLemmas

theorem subJoin {w : List Char} (hw : w ≠ []) (hc : ',' ∉ w) (hs : ' ' ∉ w) :
    ∀ parts, w <:+: joinCommaSpace parts → ∃ p ∈ parts, w <:+: p
  | [], h => by
    rw [joinCommaSpace, List.infix_nil] at h
    exact absurd h hw
  | [x], h => ⟨x, by simp, by simpa [joinCommaSpace] using h⟩
  | x :: y :: rest, h => by
    rw [joinCommaSpace] at h
    rcases subAppendCases x h with h1 | h2 | ⟨w1, w2, rfl, hn1, hn2, -, hp⟩
    · exact ⟨x, by simp, h1⟩
    · have h3 := subConsSkip hs hw (subConsSkip hc hw h2)
      obtain ⟨p, hpm, hsub⟩ := subJoin hw hc hs (y :: rest) h3
      exact ⟨p, List.mem_cons_of_mem x hpm, hsub⟩
    · exfalso
      obtain ⟨t, ht⟩ := hp
      cases w2 with
      | nil => exact hn2 rfl
      | cons e w3 =>
        rw [List.cons_append] at ht
        obtain ⟨rfl, -⟩ := List.cons.inj ht
        exact hc (List.mem_append_right w1 (List.mem_cons_self _ _))

theorem joinSubRev {w p : List Char} :
    ∀ parts, p ∈ parts → w <:+: p → w <:+: joinCommaSpace parts
  | [], hp, _ => absurd hp (List.not_mem_nil p)
  | [x], hp, h => by
    obtain rfl : p = x := by simpa using hp
    simpa [joinCommaSpace] using h
  | x :: y :: rest, hp, h => by
    rw [joinCommaSpace]
    rcases List.mem_cons.mp hp with rfl | hmem
    · exact subAppendLeftExt _ h
    · exact subAppendRightExt x
        (subConsExtend (subConsExtend (joinSubRev (y :: rest) hmem h)))

/-- Substring occurrence in the serialized flag list reduces to occurrence in
a single serialized flag, for needles free of the structural characters. -/
theorem subSerFlags {w : List Char} (hw : w ≠ []) (hc : ',' ∉ w)
    (hs : ' ' ∉ w) (hl : '[' ∉ w) (hr : ']' ∉ w) (l : List RiskDict) :
    w <:+: serFlags l ↔ ∃ f ∈ l, w <:+: serFlag f := by
  rw [serFlags]
  constructor
  · intro h
    have h2 := subConcatSkip hr hw (subConsSkip hl hw h)
    obtain ⟨p, hpm, hsub⟩ := subJoin hw hc hs _ h2
    obtain ⟨f, hf, rfl⟩ := List.mem_map.mp hpm
    exact ⟨f, hf, hsub⟩
  · rintro ⟨f, hf, hsub⟩
    exact subConsExtend
      (subAppendLeftExt _ (joinSubRev _ (List.mem_map_of_mem serFlag hf) hsub))

set_option maxRecDepth 40000 in
/-- Per-flag substring characterization over every flag the analyzer can
emit: `critical` occurs exactly in Critical-level flags and in the
blood-pressure flag (whose reason reads "Blood pressure management is
critical"); `high` occurs exactly in High-level flags. -/
theorem flagChar : ∀ f ∈ possibleFlags,
    ((criticalChars <:+: serFlag f) ↔
      (f.riskLevel = "critical" ∨ f.term = "blood pressure")) ∧
    ((highChars <:+: serFlag f) ↔ (f.riskLevel = "high")) := by decide

/-- Every flag of `analyze_text_for_risks` output is one of the finitely many
candidate flags. -/
theorem memAnalyze {t : Text} {f : RiskDict}
    (h : f ∈ analyzeTextForRisks t) : f ∈ possibleFlags := by
  rw [analyzeTextForRisks] at h
  rw [possibleFlags, List.append_assoc]
  rcases List.mem_append.mp h with h1 | h2
  · obtain ⟨r, hr, hmap⟩ := List.mem_filterMap.mp h1
    obtain ⟨p, hfind, rfl⟩ := Option.map_eq_some'.mp hmap
    exact List.mem_append_left _
      (List.mem_flatMap.mpr
        ⟨r, hr, List.mem_map_of_mem _ (List.mem_of_find?_eq_some hfind)⟩)
  · apply List.mem_append_right
    rw [checkMedicationRisks] at h2
    rcases List.mem_append.mp h2 with h3 | h3
    · apply List.mem_append_left
      rcases hfind : medicationPatterns.find? (fun p => patMatch p.1 t) with
        - | p
      · rw [hfind] at h3; simp at h3
      · rw [hfind] at h3
        obtain rfl : f = medicationDosageFlag p.2 := by simpa using h3
        exact List.mem_map_of_mem _ (List.mem_of_find?_eq_some hfind)
    · apply List.mem_append_right
      rcases hfind : dosagePatterns.find? (fun p => patMatch p.1 t) with - | p
      · rw [hfind] at h3; simp at h3
      · rw [hfind] at h3
        obtain rfl : f = dosageInstructionFlag p.2 := by simpa using h3
        exact List.mem_map_of_mem _ (List.mem_of_find?_eq_some hfind)

/-- Every flag in a row's accumulated flag list is a candidate flag. -/
theorem memRowRisks {r : EntryRow} {f : RiskDict} (h : f ∈ rowRisks r) :
    f ∈ possibleFlags := by
  rw [rowRisks] at h
  rcases List.mem_append.mp h with h1 | h2
  · exact memAnalyze h1
  · rcases hb : r.textB with - | t
    · rw [hb] at h2; simp at h2
    · rw [hb] at h2; exact memAnalyze h2

/-- The `LIKE '%critical%'` test on a serialized flag list of analyzer
output holds exactly when some flag is Critical-level or is the
blood-pressure flag. -/
theorem jsonCritIff {l : List RiskDict} (hl : ∀ f ∈ l, f ∈ possibleFlags) :
    likeContains criticalChars (serFlags l) ↔
      ∃ f ∈ l, f.riskLevel = "critical" ∨ f.term = "blood pressure" := by
  rw [likeContains,
    subSerFlags (by decide) (by decide) (by decide) (by decide) (by decide)]
  constructor
  · rintro ⟨f, hf, hsub⟩
    exact ⟨f, hf, ((flagChar f (hl f hf)).1).mp hsub⟩
  · rintro ⟨f, hf, hprop⟩
    exact ⟨f, hf, ((flagChar f (hl f hf)).1).mpr hprop⟩

/-- The `LIKE '%high%'` test on a serialized flag list of analyzer output
holds exactly when some flag is High-level. -/
theorem jsonHighIff {l : List RiskDict} (hl : ∀ f ∈ l, f ∈ possibleFlags) :
    likeContains highChars (serFlags l) ↔ ∃ f ∈ l, f.riskLevel = "high" := by
  rw [likeContains,
    subSerFlags (by decide) (by decide) (by decide) (by decide) (by decide)]
  constructor
  · rintro ⟨f, hf, hsub⟩
    exact ⟨f, hf, ((flagChar f (hl f hf)).2).mp hsub⟩
  · rintro ⟨f, hf, hprop⟩
    exact ⟨f, hf, ((flagChar f (hl f hf)).2).mpr hprop⟩

/-- C1 (amended): the persisted `priority_level` of a flagged row comes from
the substring scan of the serialized flag JSON — it is 1 when some flag has
risk level Critical OR some flag's record contains the substring `critical`
elsewhere, which happens exactly for the blood-pressure flag whose reason
text is "Blood pressure management is critical"; else 2 when some flag has
risk level High; else 3. -/
theorem flagRow_priority_from_like (r : EntryRow) (h : rowRisks r ≠ []) :
    (flagRow r).priorityLevel =
      some (if (rowRisks r).any
              (fun f => f.riskLevel == "critical" || f.term == "blood pressure")
            then 1
            else if (rowRisks r).any (fun f => f.riskLevel == "high") then 2
            else 3) := by
  have hne : (rowRisks r).isEmpty = false := by
    cases hrr : rowRisks r with
    | nil => exact absurd hrr h
    | cons a l => rfl
  rw [flagRow]
  simp only [hne, Bool.false_eq_true, if_false]
  have hl : ∀ f ∈ rowRisks r, f ∈ possibleFlags := fun f hf => memRowRisks hf
  have hc2 : likeContains criticalChars (serFlags (rowRisks r)) ↔
      ((rowRisks r).any
        (fun f => f.riskLevel == "critical" || f.term == "blood pressure")
       = true) := by
    rw [jsonCritIff hl]
    simp [List.any_eq_true]
  have hh2 : likeContains highChars (serFlags (rowRisks r)) ↔
      ((rowRisks r).any (fun f => f.riskLevel == "high") = true) := by
    rw [jsonHighIff hl]
    simp [List.any_eq_true]
  simp only [priorityFromJson]
  by_cases hb : (rowRisks r).any
      (fun f => f.riskLevel == "critical" || f.term == "blood pressure")
  · rw [if_pos hb, if_pos (hc2.mpr hb)]
  · rw [if_neg hb, if_neg (fun hx => hb (hc2.mp hx))]
    by_cases hb2 : (rowRisks r).any (fun f => f.riskLevel == "high")
    · rw [if_pos hb2, if_pos (hh2.mpr hb2)]
    · rw [if_neg hb2, if_neg (fun hx => hb2 (hh2.mp hx))]

/-- C1 witness: the amended theorem applied to the blood-pressure row. -/
theorem flagRow_priority_from_like_witness :
    rowRisks bpRow ≠ [] ∧
    (flagRow bpRow).priorityLevel =
      some (if (rowRisks bpRow).any
              (fun f => f.riskLevel == "critical" || f.term == "blood pressure")
            then 1
            else if (rowRisks bpRow).any (fun f => f.riskLevel == "high") then 2
            else 3) :=
  ⟨by decide, flagRow_priority_from_like bpRow (by decide)⟩

/-- C1 counterexample: the blood-pressure row carries no Critical-level flag
(its only flag is High-level), yet the persisted priority is 1, not the
claimed 2 — the `LIKE '%critical%'` test matches the reason text. -/
theorem flagRow_priority_counterexample :
    (flagRow bpRow).priorityLevel = some 1 ∧
    (rowRisks bpRow).any (fun f => f.riskLevel == "critical") = false ∧
    (rowRisks bpRow).any (fun f => f.riskLevel == "high") = true := by decide

/-- C2 (amended): every row written back by `flag_database_entries` gets
`requires_immediate_review = 1` unconditionally — whatever the risk levels of
its flags are. -/
theorem flagRow_review_unconditional (r : EntryRow) (h : rowRisks r ≠ []) :
    (flagRow r).requiresImmediateReview = some true := by
  have hne : (rowRisks r).isEmpty = false := by
    cases hrr : rowRisks r with
    | nil => exact absurd hrr h
    | cons a l => rfl
  rw [flagRow]
  simp [hne]

/-- C2 witness: the amended theorem applied to the surgery row. -/
theorem flagRow_review_unconditional_witness :
    rowRisks opRow ≠ [] ∧
    (flagRow opRow).requiresImmediateReview = some true :=
  ⟨by decide, flagRow_review_unconditional opRow (by decide)⟩

/-- C2 counterexample: a row whose flags are all Moderate still gets
`requires_immediate_review` set, contradicting the claimed equivalence with
the presence of a level ≥ High flag. -/
theorem flagRow_review_counterexample :
    (flagRow opRow).requiresImmediateReview = some true ∧
    (rowRisks opRow).all (fun f => f.riskLevel == "moderate") = true ∧
    rowRisks opRow ≠ [] := by decide

/-- C3 (amended): on "Call 911 immediately if chest pain worsens" the
analyzer emits no flag at all (the rule table has no pattern matching this
text and no `triage` category exists), so the row is not written back and
`requires_immediate_review` stays unset; `calculate_priority` with the
always-empty cached term set returns High via the `medical_domain` tag. -/
theorem call911_no_flag :
    (∀ rows, calculatePriority (loadHighRiskTerms highRiskColumns rows)
      (9/10) "medical" "Call 911 immediately if chest pain worsens" "corpus" =
      (.high, ["medical_domain"])) ∧
    analyzeTextForRisks row911.textA = [] ∧
    flagRow row911 = row911 := by
  refine ⟨fun rows => ?_, by decide, rfl⟩
  have h0 : loadHighRiskTerms highRiskColumns rows = [] := by
    rw [loadHighRiskTerms]
    have h1 : highRiskColumns.contains "creole_term" = false := by decide
    rw [h1]
    rfl
  rw [h0]
  have h2 : decide ((9:ℚ)/10 < 3/10) = false := decide_eq_false (by norm_num)
  have h3 : decide ((9:ℚ)/10 < 1/2) = false := decide_eq_false (by norm_num)
  simp only [calculatePriority, List.any_nil, Bool.false_eq_true, if_false]
  rw [if_neg (of_decide_eq_false h2)]
  have h4 : (("medical" == "medical") || decide ((9:ℚ)/10 < 1/2)) = true := by
    rw [h3]; rfl
  rw [if_pos h4]
  rw [if_neg (of_decide_eq_false h3)]
  rfl

/-- C3 counterexample: the claim expects at least one triage-category flag
and `requires_immediate_review = true`, but the flag list is empty — there is
no flag of any category — and the review marker remains unset. -/
theorem call911_counterexample :
    analyzeTextForRisks row911.textA = [] ∧
    (analyzeTextForRisks row911.textA).any (fun f => f.category == "triage")
      = false ∧
    (flagRow row911).requiresImmediateReview = none := by decide

/-- C4 (amended): whenever some cached high-risk term occurs in the text, the
tier-1 check dominates — `calculate_priority` returns Critical with tag
`high_risk_medical` regardless of confidence, domain and table; however,
against this repository's `high_risk` schema (no `creole_term` column) the
cached term set is always empty, so the check can never fire. -/
theorem calculatePriority_tier1_dominates :
    (∀ (terms : List String) (conf : ℚ) (domain text table : String),
      terms.any (fun term => strContains term (strLower text)) = true →
      calculatePriority terms conf domain text table =
        (.critical, ["high_risk_medical"])) ∧
    ∀ rows, loadHighRiskTerms highRiskColumns rows = [] := by
  constructor
  · intro terms conf domain text table h
    rw [calculatePriority]
    simp only [h, if_true]
  · intro rows
    rw [loadHighRiskTerms]
    have h1 : highRiskColumns.contains "creole_term" = false := by decide
    rw [h1]
    rfl

/-- C4 witness: the dominance clause at a concrete term set and text, and the
empty-load clause at a concrete hypothetical row set. -/
theorem calculatePriority_tier1_witness :
    ["cardiac arrest"].any (fun term =>
      strContains term (strLower "Patient is experiencing cardiac arrest"))
      = true ∧
    calculatePriority ["cardiac arrest"] (9/10) "general"
      "Patient is experiencing cardiac arrest" "corpus" =
      (.critical, ["high_risk_medical"]) ∧
    loadHighRiskTerms highRiskColumns [("cardiac arrest", "critical")] = [] :=
  ⟨by decide,
   calculatePriority_tier1_dominates.1 _ _ _ _ _ (by decide),
   calculatePriority_tier1_dominates.2 _⟩

/-- C4 counterexample: with the term set actually loadable from this
repository's `high_risk` table, "Patient is experiencing cardiac arrest" at
confidence 0.9 in domain `general` gets priority Low with no tag — not
Critical with `high_risk_medical`. -/
theorem calculatePriority_tier1_counterexample :
    calculatePriority
      (loadHighRiskTerms highRiskColumns [("cardiac arrest", "critical")])
      (9/10) "general" "Patient is experiencing cardiac arrest" "corpus" =
      (.low, []) := by
  have h0 : loadHighRiskTerms highRiskColumns [("cardiac arrest", "critical")]
      = [] := by
    rw [loadHighRiskTerms]
    have h1 : highRiskColumns.contains "creole_term" = false := by decide
    rw [h1]
    rfl
  rw [h0]
  have h2 : decide ((9:ℚ)/10 < 3/10) = false := decide_eq_false (by norm_num)
  have h3 : decide ((9:ℚ)/10 < 1/2) = false := decide_eq_false (by norm_num)
  have h4 : decide ((9:ℚ)/10 < 7/10) = false := decide_eq_false (by norm_num)
  simp only [calculatePriority, List.any_nil, Bool.false_eq_true, if_false]
  rw [if_neg (of_decide_eq_false h2)]
  have h5 : (("general" == "medical") || decide ((9:ℚ)/10 < 1/2)) = false := by
    rw [h3]; rfl
  rw [if_neg (by rw [h5]; exact Bool.false_ne_true)]
  have h6 : (("corpus" == "expressions") || ("general" == "cultural") ||
      decide ((9:ℚ)/10 < 7/10)) = false := by
    rw [h4]; rfl
  rw [if_neg (by rw [h6]; exact Bool.false_ne_true)]

/-- C5: "Take 2 insulin injections daily" yields exactly two flags — the
vocabulary insulin flag (High) and the structural `medication_dosage` flag
(High) — accumulated independently, neither suppressing the other. -/
theorem insulin_double_flag :
    (analyzeTextForRisks ["take", "2", "insulin", "injections", "daily"]).any
      (fun f => f.term == "insulin" && f.riskLevel == "high") = true ∧
    (analyzeTextForRisks ["take", "2", "insulin", "injections", "daily"]).any
      (fun f => f.term == "medication_dosage" && f.riskLevel == "high")
      = true ∧
    (analyzeTextForRisks ["take", "2", "insulin", "injections", "daily"]).length
      = 2 := by decide

theorem mem_orderedInsertB {α : Type _} (le : α → α → Bool) (x a : α) :
    ∀ l, a ∈ orderedInsertB le x l ↔ a = x ∨ a ∈ l := by
  intro l
  induction l with
  | nil => simp [orderedInsertB]
  | cons y ys ih =>
    rw [orderedInsertB]
    split
    · simp
    · simp only [List.mem_cons, ih]
      tauto

theorem mem_stableSort {α : Type _} (le : α → α → Bool) (a : α) :
    ∀ l, a ∈ stableSort le l ↔ a ∈ l := by
  intro l
  induction l with
  | nil => simp [stableSort]
  | cons x xs ih =>
    rw [stableSort, mem_orderedInsertB]
    simp [ih]

theorem length_orderedInsertB {α : Type _} (le : α → α → Bool) (x : α) :
    ∀ l, (orderedInsertB le x l).length = l.length + 1 := by
  intro l
  induction l with
  | nil => rfl
  | cons y ys ih =>
    rw [orderedInsertB]
    split
    · rfl
    · simp [ih]

theorem length_stableSort {α : Type _} (le : α → α → Bool) :
    ∀ l, (stableSort le l).length = l.length := by
  intro l
  induction l with
  | nil => rfl
  | cons x xs ih => rw [stableSort, length_orderedInsertB, ih]; rfl

theorem flagRow_of_flags (r : EntryRow) (h : (rowRisks r).isEmpty = false) :
    flagRow r =
      { r with medicalRiskFlags := some (serFlags (rowRisks r)),
               requiresImmediateReview := some true,
               priorityLevel :=
                 some (priorityFromJson (serFlags (rowRisks r))) } := by
  simp only [flagRow]
  rw [if_neg (by rw [h]; exact Bool.false_ne_true)]

theorem rowRisks_flagRow (r : EntryRow) :
    rowRisks (flagRow r) = rowRisks r := by
  simp only [flagRow]
  split
  · rfl
  · rfl

theorem flagRow_status (r : EntryRow) :
    (flagRow r).curationStatus = r.curationStatus := by
  simp only [flagRow]
  split
  · rfl
  · rfl

theorem flagRow_idem (r : EntryRow) : flagRow (flagRow r) = flagRow r := by
  cases h : (rowRisks r).isEmpty with
  | true =>
    have h1 : flagRow r = r := by
      simp only [flagRow]
      rw [if_pos h]
    rw [h1]
    exact h1
  | false =>
    have h2 := rowRisks_flagRow r
    have hf2 : (rowRisks (flagRow r)).isEmpty = false := by rw [h2]; exact h
    rw [flagRow_of_flags (flagRow r) hf2, h2, flagRow_of_flags r h]

theorem flagTable_idem (rows : List EntryRow) :
    flagTable (flagTable rows) = flagTable rows := by
  simp only [flagTable, List.map_map]
  apply List.map_congr_left
  intro r _
  simp only [Function.comp_apply]
  by_cases h : (r.curationStatus == "draft") = true
  · rw [if_pos h, if_pos (by rw [flagRow_status]; exact h)]
    exact flagRow_idem r
  · rw [if_neg h, if_neg h]

/-- C6: `flag_database_entries` is idempotent — sweeping the same store twice
leaves every row exactly as after one sweep, because the flag JSON is
recomputed from the unchanged text and written by replacement. -/
theorem flagDatabaseEntries_idem (t : Option String) (s : Store) :
    flagDatabaseEntries t (flagDatabaseEntries t s) =
      flagDatabaseEntries t s := by
  cases t with
  | none =>
    simp only [flagDatabaseEntries]
    rw [flagTable_idem, flagTable_idem, flagTable_idem]
  | some name =>
    simp only [flagDatabaseEntries]
    by_cases h1 : (name == "corpus") = true <;>
      by_cases h2 : (name == "glossary") = true <;>
        by_cases h3 : (name == "expressions") = true <;>
          simp [h1, h2, h3, flagTable_idem]

theorem tasksOfRows_shape (hrt : List String) (tname : String)
    (domOf : EntryRow → Option String) (pf : Option PriorityLevel) :
    ∀ rows, tasksOfRows hrt tname domOf pf rows = .ok [] ∨
      ∃ e, tasksOfRows hrt tname domOf pf rows = .error e := by
  intro rows
  induction rows with
  | nil => exact .inl rfl
  | cons r rest ih =>
    rw [tasksOfRows]
    split <;> split <;>
      first
        | exact ih
        | exact .inr ⟨_, rfl⟩

/-- C7: `get_prioritized_tasks` always returns the empty list — as soon as a
row survives the filters, task construction evaluates `row.get(...)` on a
`sqlite3.Row`, raising `AttributeError`, and the blanket handler returns
`[]`; when no row survives, the result is empty anyway. The documented
sorted queue is never produced. -/
theorem getPrioritizedTasks_empty (hrt : List String) (limit : Nat)
    (pf : Option PriorityLevel) (df : Option String) (s : Store) :
    getPrioritizedTasks hrt limit pf df s = [] := by
  rw [getPrioritizedTasks]
  rcases tasksOfRows_shape hrt "corpus" (fun r => r.domain) pf
      (selectDraftRows (fun r => r.domain) df s.corpus) with h1 | ⟨e1, h1⟩
  · rw [h1]
    rcases tasksOfRows_shape hrt "glossary" (fun r => r.domain) pf
        (selectDraftRows (fun r => r.domain) df s.glossary) with h2 | ⟨e2, h2⟩
    · rw [h2]
      rcases tasksOfRows_shape hrt "expressions" (fun r => r.register) pf
          (selectDraftRows (fun r => r.register) df s.expressions) with
          h3 | ⟨e3, h3⟩
      · rw [h3]
        simp only [List.nil_append, stableSort, List.take_nil]
      · rw [h3]
    · rw [h2]
  · rw [h1]

theorem numberBatches_len :
    ∀ (start : Nat) (l : List (HaitianRegion × ExpressionType × List EntryRow)),
      (numberBatches start l).length = l.length := by
  intro start l
  induction l generalizing start with
  | nil => rfl
  | cons g rest ih => simp [numberBatches, ih]

theorem numberBatches_seqs :
    ∀ (start : Nat) (l : List (HaitianRegion × ExpressionType × List EntryRow)),
      (numberBatches start l).map (fun b => b.seq) =
        List.range' start l.length := by
  intro start l
  induction l generalizing start with
  | nil => rfl
  | cons g rest ih =>
    simp only [numberBatches, List.map_cons, List.length_cons,
      List.range'_succ, ih]
    rfl

/-- C8 (amended): the numeric suffixes of the created batches are consecutive
from 1 *globally*, across all (region, type) groups in creation order — not
restarting at 1 per group; the returned list is that creation list sorted by
priority score. -/
theorem createBatches_seq_global (bs : Nat) (rf : Option HaitianRegion)
    (tf : Option ExpressionType) (s : Store) :
    (createBatchesUnsorted bs rf tf s).map (fun b => b.seq) =
      List.range' 1 (createBatchesUnsorted bs rf tf s).length ∧
    createBatches bs rf tf s =
      stableSort (fun a b => b.priorityScore ≤ a.priorityScore)
        (createBatchesUnsorted bs rf tf s) := by
  refine ⟨?_, rfl⟩
  rw [createBatchesUnsorted]
  split
  · rfl
  · rw [numberBatches_seqs, numberBatches_len]

/-- C8 counterexample: with two draft expressions classifying into the
(general, idiom) and (general, family) groups, the family group's only batch
carries sequence number 2 — no batch of that group is numbered 1, refuting
the claimed per-group numbering that restarts at 1. -/
theorem createBatches_seq_counterexample :
    (∃ b ∈ createBatches 20 none none exprStore,
      b.region = HaitianRegion.general ∧
      b.expressionType = ExpressionType.family ∧ b.seq = 2) ∧
    (∀ b ∈ createBatches 20 none none exprStore,
      ¬(b.expressionType = ExpressionType.family ∧ b.seq = 1)) := by
  constructor
  · simp only [createBatches, mem_stableSort]
    decide
  · simp only [createBatches, mem_stableSort]
    decide

/-- C9 (amended): `update_curation_status` performs no validation — an
unknown table name fails through the storage layer with no modification and
returns `False` (not an InvalidArgument error), while for a known table ANY
status string, enum member or not, is committed verbatim and the call
returns `True`. -/
theorem updateCurationStatus_unchecked (s : Store) (entryId : Nat)
    (table status notes : String) :
    (table ∉ knownTables →
      updateCurationStatus s entryId table status notes = (false, s)) ∧
    (table ∈ knownTables →
      (updateCurationStatus s entryId table status notes).1 = true) ∧
    (updateCurationStatus s entryId "corpus" status notes).2.corpus =
      writeStatus entryId status notes s.corpus := by
  refine ⟨fun h => ?_, fun h => ?_, ?_⟩
  · simp only [knownTables, List.mem_cons, List.not_mem_nil, or_false,
      not_or] at h
    obtain ⟨hn1, hn2, hn3⟩ := h
    simp [updateCurationStatus, hn1, hn2, hn3]
  · simp only [knownTables, List.mem_cons, List.not_mem_nil, or_false] at h
    rcases h with rfl | rfl | rfl <;> simp [updateCurationStatus]
  · simp [updateCurationStatus]

/-- C9 witness: the amended theorem applied to an unknown table and to a
known table with a non-enum status. -/
theorem updateCurationStatus_unchecked_witness :
    updateCurationStatus dashStore 1 "sidetable" "reviewed" "" =
      (false, dashStore) ∧
    (updateCurationStatus dashStore 1 "corpus" "totally_bogus" "").1 =
      true :=
  ⟨(updateCurationStatus_unchecked dashStore 1 "sidetable" "reviewed" "").1
     (by decide),
   (updateCurationStatus_unchecked dashStore 1 "corpus" "totally_bogus" "").2.1
     (by decide)⟩

/-- C9 counterexample: a status value outside the curation-status enum is
accepted — the call reports success and the bogus string is persisted,
refuting the claimed InvalidArgument failure with no write. -/
theorem updateCurationStatus_counterexample :
    (updateCurationStatus dashStore 1 "corpus" "totally_bogus" "").1 = true ∧
    ((updateCurationStatus dashStore 1 "corpus" "totally_bogus" "").2.corpus.map
      (fun r => r.curationStatus)) = ["totally_bogus"] := by
  exact ⟨rfl, rfl⟩

theorem chunksGo_ne_nil :
    ∀ (fuel n : Nat) (l : List EntryRow), ∀ c ∈ chunksGo n fuel l, c ≠ [] := by
  intro fuel
  induction fuel with
  | zero =>
    intro n l c hc
    cases l <;> simp [chunksGo] at hc
  | succ f ih =>
    intro n l c hc
    cases l with
    | nil => simp [chunksGo] at hc
    | cons x xs =>
      cases n with
      | zero => simp [chunksGo] at hc
      | succ m =>
        simp only [chunksGo] at hc
        rcases List.mem_cons.mp hc with rfl | h2
        · simp
        · exact ih (m + 1) ((x :: xs).drop (m + 1)) c h2

theorem chunksOf_ne_nil (n : Nat) (l : List EntryRow) :
    ∀ c ∈ chunksOf n l, c ≠ [] :=
  fun c hc => chunksGo_ne_nil l.length n l c hc

theorem mem_numberBatches :
    ∀ (start : Nat) (l : List (HaitianRegion × ExpressionType × List EntryRow))
      (b : CulturalBatch), b ∈ numberBatches start l →
      ∃ g ∈ l, b.expressions = g.2.2 := by
  intro start l
  induction l generalizing start with
  | nil => intro b h; simp [numberBatches] at h
  | cons g rest ih =>
    intro b h
    rw [numberBatches] at h
    rcases List.mem_cons.mp h with rfl | h2
    · exact ⟨g, List.mem_cons_self g rest, rfl⟩
    · obtain ⟨g2, hg2, hexp⟩ := ih (start + 1) b h2
      exact ⟨g2, List.mem_cons_of_mem g hg2, hexp⟩

/-- C10: for every positive batch size, every batch returned by
`create_batches` holds at least one expression — the chunking never emits an
empty slice — so the average-confidence division in
`_calculate_priority_score` has a nonzero denominator. -/
theorem createBatches_nonempty (bs : Nat) (rf : Option HaitianRegion)
    (tf : Option ExpressionType) (s : Store) (hbs : 1 ≤ bs) :
    ∀ b ∈ createBatches bs rf tf s,
      b.expressions ≠ [] ∧ ((b.expressions.length : ℚ) ≠ 0) := by
  intro b hb
  rw [createBatches, mem_stableSort] at hb
  have h0 : ¬ (bs = 0) := by omega
  rw [createBatchesUnsorted, if_neg h0] at hb
  obtain ⟨g, hg, hexp⟩ := mem_numberBatches 1 _ b hb
  rw [allChunks] at hg
  obtain ⟨gr, hgr, hmap⟩ := List.mem_flatMap.mp hg
  obtain ⟨c, hc, rfl⟩ := List.mem_map.mp hmap
  have hne : c ≠ [] := chunksOf_ne_nil bs gr.2.2 c hc
  refine ⟨by rw [hexp]; exact hne, ?_⟩
  rw [hexp]
  simpa [Nat.cast_eq_zero, List.length_eq_zero] using hne

/-- C10 witness: the theorem applied at batch size 1 to the concrete store,
whose two batches are both nonempty. -/
theorem createBatches_nonempty_witness :
    (1 ≤ 1) ∧
    (createBatches 1 none none exprStore).length = 2 ∧
    (createBatches 1 none none exprStore).all
      (fun b => !b.expressions.isEmpty) = true := by
  refine ⟨by decide, ?_, ?_⟩
  · rw [createBatches, length_stableSort]
    decide
  · rw [List.all_eq_true]
    intro b hb
    have h := (createBatches_nonempty 1 none none exprStore (by decide) b hb).1
    cases hE : b.expressions with
    | nil => exact absurd hE h
    | cons x xs => rfl

end Kalimax
